import Mathlib

/-!
Verification of the personal library manager (src/app.py): a shallow
embedding of its store, persistence layer and query engine, with theorems
settling the specified properties.

Modelling conventions:
* A Python book dict (created in add_book with keys id, title, author,
  publication_year, genre, read_status) is the structure Book.
* The session store st.session_state.library is a List Book; the backing
  JSON file is modelled by FileContent, and LibState bundles the store,
  the file and a write counter (each save_library_to_file call is one
  write).
* The json module boundary is modelled at the level of JSON value trees
  (the inductive Json): json.dump writes the tree of the library, and
  json.load returns the parsed tree. Serialising a tree to text and
  parsing it back is the identity on trees for the fragment used here, so
  text is elided.
* Python floats are modelled by exact rationals (ℚ).
-/

/-- A book record, as built by add_book in src/app.py:
id, title, author, publication_year, genre, read_status. -/
structure Book where
  id : Nat
  title : String
  author : String
  publication_year : Nat
  genre : String
  read_status : Bool
deriving Repr, DecidableEq

/-- JSON value trees (the fragment the app exchanges with the json module). -/
inductive Json where
  | null
  | bool (b : Bool)
  | num (n : Int)
  | str (s : String)
  | arr (xs : List Json)
  | obj (fields : List (String × Json))
deriving Repr

/-- Does the character list hay start with needle? (helper for the
substring test below). -/
def startsWithL (needle : List Char) : List Char → Bool
  | [] =>
    match needle with
    | [] => true
    | _ :: _ => false
  | d :: ds =>
    match needle with
    | [] => true
    | c :: cs => c == d && startsWithL cs ds

/-- Does needle occur as a contiguous sublist of hay? -/
def hasSubL (needle : List Char) : List Char → Bool
  | [] => startsWithL needle []
  | d :: ds => startsWithL needle (d :: ds) || hasSubL needle ds

/-- The Python test `needle in hay` on strings: contiguous substring test. -/
def strContains (hay needle : String) : Bool :=
  hasSubL needle.data hay.data

/-- The backing file library.json: absent, present but not valid JSON, or
present with a parsed JSON tree. -/
inductive FileContent where
  | absent
  | malformed (raw : String)
  | wellFormed (j : Json)

/-- The interpreter state the app manipulates: the in-memory library, the
backing file, and how many times the file has been written. -/
structure LibState where
  library : List Book
  file : FileContent
  writes : Nat

/-- The JSON tree json.dump writes for one book dict (the literal built
in add_book). -/
def bookToJson (b : Book) : Json :=
  .obj [("id", .num b.id), ("title", .str b.title), ("author", .str b.author),
        ("publication_year", .num b.publication_year), ("genre", .str b.genre),
        ("read_status", .bool b.read_status)]

/-- The JSON tree json.dump writes for the whole library (a JSON array). -/
def library_to_json (library : List Book) : Json :=
  .arr (library.map bookToJson)

/-- save_library_to_file: overwrites the backing file with the serialised
library (json.dump(st.session_state.library, f, indent=4)). -/
def save_library_to_file (s : LibState) : LibState :=
  { s with file := .wellFormed (library_to_json s.library), writes := s.writes + 1 }

/-- add_book: appends a record with id = len(library) + 1 and saves. -/
def add_book (s : LibState) (title author : String) (publication_year : Nat)
    (genre : String) (read_status : Bool) : LibState :=
  save_library_to_file
    { s with library := s.library ++
        [{ id := s.library.length + 1, title := title, author := author,
           publication_year := publication_year, genre := genre,
           read_status := read_status }] }

/-- remove_book: keeps every book whose id differs from book_id, then saves. -/
def remove_book (s : LibState) (book_id : Nat) : LibState :=
  save_library_to_file
    { s with library := s.library.filter (fun b => b.id != book_id) }

/-- search_books from src/app.py: an optional multi-field substring pass,
an optional genre pass, and an optional read-status pass, in sequence. -/
def search_books (books : List Book)
    (search_term genre_filter read_status_filter : String) : List Book :=
  let term := search_term.toLower
  let filtered := books
  let filtered :=
    if search_term ≠ "" then
      filtered.filter (fun book =>
        strContains book.title.toLower term ||
        strContains book.author.toLower term ||
        strContains book.genre.toLower term ||
        strContains (toString book.publication_year) term)
    else filtered
  let filtered :=
    if genre_filter ≠ "All" then
      filtered.filter (fun book => book.genre.toLower == genre_filter.toLower)
    else filtered
  let filtered :=
    if read_status_filter ≠ "All" then
      let read_status_bool := read_status_filter == "Read"
      filtered.filter (fun book => book.read_status == read_status_bool)
    else filtered
  filtered

/-- get_statistics: total count and (exact-rational model of) the read
percentage, guarded against an empty library. -/
def get_statistics (library : List Book) : Nat × ℚ :=
  let total_books := library.length
  let read_books := library.countP (fun book => book.read_status)
  let percentage_read : ℚ :=
    if total_books > 0 then (read_books : ℚ) / (total_books : ℚ) * 100 else 0
  (total_books, percentage_read)

/-- Startup load (src/app.py lines 9–15): an absent file yields the empty
library; a malformed file makes json.load raise (unhandled); a well-formed
file yields its parsed tree unvalidated. -/
def startup_load : FileContent → Except String Json
  | .absent => .ok (.arr [])
  | .malformed _ => .error "json.decoder.JSONDecodeError"
  | .wellFormed j => .ok j

/-- First binding of a key in a JSON object (Python dict access on the
trees json.load returns). -/
def lookupField : List (String × Json) → String → Option Json
  | [], _ => none
  | (k, v) :: fs, key => if k == key then some v else lookupField fs key

/-- Reading one book record back out of its JSON tree: the fields the app
wrote, at the types it wrote them. -/
def readBook (j : Json) : Option Book :=
  match j with
  | .obj fs =>
    match lookupField fs "id", lookupField fs "title", lookupField fs "author",
        lookupField fs "publication_year", lookupField fs "genre",
        lookupField fs "read_status" with
    | some (.num i), some (.str t), some (.str a), some (.num y),
        some (.str g), some (.bool r) =>
      match i, y with
      | .ofNat i', .ofNat y' =>
        some { id := i', title := t, author := a, publication_year := y',
               genre := g, read_status := r }
      | _, _ => none
    | _, _, _, _, _, _ => none
  | _ => none

/-- Reading each element of a loaded JSON array as a book record. -/
def readBookList : List Json → Option (List Book)
  | [] => some []
  | j :: js =>
    match readBook j, readBookList js with
    | some b, some bs => some (b :: bs)
    | _, _ => none

/-- Reading a whole library back out of the JSON array json.dump wrote. -/
def loadBooks (j : Json) : Option (List Book) :=
  match j with
  | .arr xs => readBookList xs
  | _ => none

/-- The search criteria exactly as the specification phrases them: a
non-empty term must occur (lowercased) in the lowercased title, author or
genre or in the decimal string of the year; a genre filter other than
"All" must equal the genre case-insensitively; a read-status filter other
than "All" must equal the read flag (filter value "Read" meaning read). -/
def claim_criteria (search_term genre_filter read_status_filter : String)
    (b : Book) : Bool :=
  (if search_term = "" then true
   else
     strContains b.title.toLower search_term.toLower ||
     strContains b.author.toLower search_term.toLower ||
     strContains b.genre.toLower search_term.toLower ||
     strContains (toString b.publication_year) search_term.toLower) &&
  (if genre_filter = "All" then true
   else b.genre.toLower == genre_filter.toLower) &&
  (if read_status_filter = "All" then true
   else b.read_status == (read_status_filter == "Read"))

/-- An initial session: empty library, no backing file, nothing written. -/
def empty_state : LibState :=
  { library := [], file := .absent, writes := 0 }

/-- The scenario from the design notes: add three books, remove the book
with id 2, add a fourth book. -/
def c3_trace : LibState :=
  add_book
    (remove_book
      (add_book
        (add_book
          (add_book empty_state "Book One" "Author One" 2001 "Fiction" false)
          "Book Two" "Author Two" 2002 "Fiction" false)
        "Book Three" "Author Three" 2003 "Fiction" false)
      2)
    "Book Four" "Author Four" 2004 "Fiction" false

/-- A concrete four-book library with exactly one book marked read. -/
def four_books_one_read : List Book :=
  [{ id := 1, title := "A", author := "a", publication_year := 2000,
     genre := "G", read_status := true },
   { id := 2, title := "B", author := "b", publication_year := 2001,
     genre := "G", read_status := false },
   { id := 3, title := "C", author := "c", publication_year := 2002,
     genre := "G", read_status := false },
   { id := 4, title := "D", author := "d", publication_year := 2003,
     genre := "G", read_status := false }]

/-- A concrete one-book session used to instantiate the remove theorems. -/
def one_book_state : LibState :=
  { library := [{ id := 1, title := "Dune", author := "Frank Herbert",
                  publication_year := 1965, genre := "Science Fiction",
                  read_status := true }],
    file := .absent, writes := 0 }

/-- Filtering keeps length minus the count of the complement. -/
theorem filter_length_add_countP_not {α : Type} (p : α → Bool) (l : List α) :
    (l.filter p).length + l.countP (fun a => !p a) = l.length := by
  induction l with
  | nil => rfl
  | cons a l ih =>
    cases h : p a <;> simp [List.filter_cons, List.countP_cons, h] <;> omega

/-- The library after remove_book: a sublist of the old library that drops
exactly the books whose id matches and keeps every other book. -/
theorem remove_book_library_props (s : LibState) (i : Nat) :
    ((remove_book s i).library).Sublist s.library ∧
    (∀ b ∈ (remove_book s i).library, b.id ≠ i) ∧
    (∀ b ∈ s.library, b.id ≠ i → b ∈ (remove_book s i).library) := by
  refine ⟨?_, ?_, ?_⟩
  · simp only [remove_book, save_library_to_file]
    exact List.filter_sublist s.library
  · intro b hb
    simp only [remove_book, save_library_to_file, List.mem_filter,
      bne_iff_ne] at hb
    exact hb.2
  · intro b hb hne
    simp only [remove_book, save_library_to_file, List.mem_filter, bne_iff_ne]
    exact ⟨hb, hne⟩

/-- Decoding the tree written for one book recovers the book. -/
theorem readBook_bookToJson (b : Book) : readBook (bookToJson b) = some b := rfl

/-- Decoding the tree written for a whole library recovers the library. -/
theorem readBookList_map_bookToJson (books : List Book) :
    readBookList (books.map bookToJson) = some books := by
  induction books with
  | nil => rfl
  | cons b bs ih =>
    simp only [List.map_cons, readBookList, readBook_bookToJson, ih]

/-- C1: in a store where exactly one record has id i, remove_book i drops
that record and nothing else — the library shrinks by exactly one, no
record with id i remains, every record with another id survives, and the
survivors keep their relative order (the result is a sublist). -/
theorem remove_book_unique_id_removes_one (s : LibState) (i : Nat)
    (h : s.library.countP (fun b => b.id == i) = 1) :
    ((remove_book s i).library).Sublist s.library ∧
    (remove_book s i).library.length + 1 = s.library.length ∧
    (∀ b ∈ (remove_book s i).library, b.id ≠ i) ∧
    (∀ b ∈ s.library, b.id ≠ i → b ∈ (remove_book s i).library) := by
  obtain ⟨h1, h2, h3⟩ := remove_book_library_props s i
  refine ⟨h1, ?_, h2, h3⟩
  have key := filter_length_add_countP_not (fun b => b.id != i) s.library
  have hcong : s.library.countP (fun b => !(b.id != i)) =
      s.library.countP (fun b => b.id == i) := by
    apply List.countP_congr
    intro b _
    simp [bne]
  simp only [remove_book, save_library_to_file]
  rw [hcong] at key
  omega

/-- C1 witness: the one-book session has exactly one record with id 1, and
removing id 1 behaves as stated. -/
theorem remove_book_unique_id_removes_one_witness :
    one_book_state.library.countP (fun b => b.id == 1) = 1 ∧
    (((remove_book one_book_state 1).library).Sublist one_book_state.library ∧
     (remove_book one_book_state 1).library.length + 1 =
       one_book_state.library.length ∧
     (∀ b ∈ (remove_book one_book_state 1).library, b.id ≠ 1) ∧
     (∀ b ∈ one_book_state.library, b.id ≠ 1 →
       b ∈ (remove_book one_book_state 1).library)) :=
  ⟨by decide, remove_book_unique_id_removes_one one_book_state 1 (by decide)⟩

/-- C3: id uniqueness is not an invariant — after adding three books,
removing the book with id 2 and adding one more, the store holds two
distinct records that both carry id 3, because add_book assigns
id = current length + 1. -/
theorem count_based_ids_can_collide :
    c3_trace.library.map (fun b => b.id) = [1, 3, 3] ∧
    ∃ b1 ∈ c3_trace.library, ∃ b2 ∈ c3_trace.library,
      b1 ≠ b2 ∧ b1.id = b2.id := by
  decide

/-- C4: search_books returns exactly the records satisfying the
conjunction of the three spec criteria, in their original order — the
sequential passes of the code equal one filter by claim_criteria. -/
theorem search_books_matches_claim (books : List Book) (t g r : String) :
    search_books books t g r = books.filter (claim_criteria t g r) := by
  unfold search_books claim_criteria
  by_cases ht : t = "" <;> by_cases hg : g = "All" <;> by_cases hr : r = "All" <;>
    simp [ht, hg, hr, List.filter_filter, Bool.and_assoc, Bool.and_comm,
      Bool.and_left_comm]

/-- C4 witness: the equivalence at a concrete library and query. -/
theorem search_books_matches_claim_witness :
    search_books four_books_one_read "b" "All" "Unread" =
      four_books_one_read.filter (claim_criteria "b" "All" "Unread") :=
  search_books_matches_claim four_books_one_read "b" "All" "Unread"

/-- C5: persistence round-trip — after save_library_to_file the backing
file holds a JSON tree that decodes back to exactly the saved library,
same fields, same order. -/
theorem load_save_round_trip (s : LibState) :
    ∃ j, (save_library_to_file s).file = .wellFormed j ∧
      loadBooks j = some s.library :=
  ⟨library_to_json s.library, rfl, readBookList_map_bookToJson s.library⟩

/-- C5 witness: the round-trip at a concrete one-book session. -/
theorem load_save_round_trip_witness :
    ∃ j, (save_library_to_file one_book_state).file = .wellFormed j ∧
      loadBooks j = some one_book_state.library :=
  load_save_round_trip one_book_state

/-- C6: get_statistics returns the total count paired with the read
percentage, equal to 0 when the library is empty (guarded division) and to
read_count / total_count * 100 otherwise; in particular the empty library
gives (0, 0) and four books with one read give (4, 25). -/
theorem get_statistics_spec :
    (∀ library : List Book,
        get_statistics library =
          (library.length,
           if library.length = 0 then 0
           else (library.countP (fun b => b.read_status) : ℚ) /
             library.length * 100)) ∧
    get_statistics [] = (0, 0) ∧
    get_statistics four_books_one_read = (4, 25) := by
  refine ⟨fun library => ?_, rfl, ?_⟩
  swap
  · norm_num [get_statistics, four_books_one_read, List.countP, List.countP.go]
  simp only [get_statistics]
  rcases Nat.eq_zero_or_pos library.length with h | h
  · simp [h]
  · simp [h, Nat.pos_iff_ne_zero.mp h]

/-- C7: searching with the empty term and both filters at "All" is the
identity on the library. -/
theorem search_books_identity (books : List Book) :
    search_books books "" "All" "All" = books := by
  simp [search_books]

/-- C7 witness: the identity at a concrete library. -/
theorem search_books_identity_witness :
    search_books four_books_one_read "" "All" "All" = four_books_one_read :=
  search_books_identity four_books_one_read

/-- C8: removing an id that matches no record leaves the library unchanged
(silent no-op) and still performs one full save: the file now holds the
serialised library and the write counter grew by one. -/
theorem remove_book_absent_id_noop_saves (s : LibState) (i : Nat)
    (h : ∀ b ∈ s.library, b.id ≠ i) :
    (remove_book s i).library = s.library ∧
    (remove_book s i).file = .wellFormed (library_to_json s.library) ∧
    (remove_book s i).writes = s.writes + 1 := by
  have hf : s.library.filter (fun b => b.id != i) = s.library := by
    apply List.filter_eq_self.mpr
    intro b hb
    simpa [bne_iff_ne] using h b hb
  simp [remove_book, save_library_to_file, hf]

/-- C8 witness: removing the absent id 2 from the one-book session. -/
theorem remove_book_absent_id_noop_saves_witness :
    (∀ b ∈ one_book_state.library, b.id ≠ 2) ∧
    ((remove_book one_book_state 2).library = one_book_state.library ∧
     (remove_book one_book_state 2).file =
       .wellFormed (library_to_json one_book_state.library) ∧
     (remove_book one_book_state 2).writes = one_book_state.writes + 1) :=
  ⟨by decide, remove_book_absent_id_noop_saves one_book_state 2 (by decide)⟩

/-- C9: startup treats an absent backing file as the empty library (no
error, and the tree it substitutes decodes to the empty record list), a
malformed file as a fatal unhandled parse error, and a well-formed file as
its parsed tree with no validation whatsoever. -/
theorem startup_load_spec :
    (startup_load .absent = .ok (.arr []) ∧ loadBooks (.arr []) = some []) ∧
    (∀ raw, ∃ e, startup_load (.malformed raw) = .error e) ∧
    (∀ j, startup_load (.wellFormed j) = .ok j) :=
  ⟨⟨rfl, rfl⟩, fun _ => ⟨_, rfl⟩, fun _ => rfl⟩

/-- C10: remove_book removes every record whose id matches, not only the
first — afterwards no record with that id remains, every record with a
different id survives, and the survivors keep their relative order. -/
theorem remove_book_removes_all_matching (s : LibState) (i : Nat) :
    ((remove_book s i).library).Sublist s.library ∧
    (∀ b ∈ (remove_book s i).library, b.id ≠ i) ∧
    (∀ b ∈ s.library, b.id ≠ i → b ∈ (remove_book s i).library) :=
  remove_book_library_props s i

/-- C10 witness: removing id 1 from the one-book session. -/
theorem remove_book_removes_all_matching_witness :
    ((remove_book one_book_state 1).library).Sublist one_book_state.library ∧
    (∀ b ∈ (remove_book one_book_state 1).library, b.id ≠ 1) ∧
    (∀ b ∈ one_book_state.library, b.id ≠ 1 →
      b ∈ (remove_book one_book_state 1).library) :=
  remove_book_removes_all_matching one_book_state 1
